import Mathlib

/-!
Verification of the tracking reconciliation engine of tracking/rastreamento.py.

The Python source is shallowly embedded: every definition below mirrors one
function or constant of the source file (names are kept).  Effects are made
explicit:
* the current time (datetime.now) is passed as a parameter agora;
* the SHA-1 hex digest is passed as a parameter sha1hex, since every property
  proved here depends only on the digest being a function of its payload;
* the selenium fetch outcome of one row is passed as a parameter: none models
  an exception raised inside the try-block (navigation, timeout, missing DOM
  sub-element), some eventos models the extracted event list;
* the Google-Sheets write call of a flush is modelled by a function
  remote taking the attempt number, and the backoff jitter by a function
  jitter, so that one flush is a pure function of these.

Python str.lower and str.upper are modelled on the ASCII and Latin-1 letter
ranges, which cover every phrase table and status literal of the source (the
special expansions of U+00DF and U+00FF do not occur there).  str.strip and
the regex substitution of consecutive whitespace collapse are modelled over
the six ASCII whitespace characters.  Python datetimes are modelled as a
proleptic-Gregorian wall-clock record; America/Sao_Paulo has kept a fixed
UTC offset since 2019, so aware subtraction equals wall-clock subtraction.
-/

/-! ## Text helpers (str.strip, str.lower, str.upper, re.sub whitespace) -/

def ehEspaco (c : Char) : Bool :=
  (c == ' ') || (c == '\t') || (c == '\n') || (c == '\r') ||
  (c.toNat == 11) || (c.toNat == 12)

def pyToLower (c : Char) : Char :=
  if 65 ≤ c.toNat ∧ c.toNat ≤ 90 then Char.ofNat (c.toNat + 32)
  else if 192 ≤ c.toNat ∧ c.toNat ≤ 222 ∧ c.toNat ≠ 215 then Char.ofNat (c.toNat + 32)
  else c

def pyToUpper (c : Char) : Char :=
  if 97 ≤ c.toNat ∧ c.toNat ≤ 122 then Char.ofNat (c.toNat - 32)
  else if 224 ≤ c.toNat ∧ c.toNat ≤ 254 ∧ c.toNat ≠ 247 then Char.ofNat (c.toNat - 32)
  else c

def stripLista (l : List Char) : List Char :=
  (((l.dropWhile ehEspaco).reverse).dropWhile ehEspaco).reverse

def stripStr (s : String) : String :=
  String.mk (stripLista s.toList)

/-- One pass of re.sub applied to consecutive whitespace with a single blank;
the flag records whether the previous character belonged to a whitespace run. -/
def colapsarAux : Bool → List Char → List Char
  | _, [] => []
  | emEspaco, c :: resto =>
    if ehEspaco c then
      if emEspaco then colapsarAux true resto
      else ' ' :: colapsarAux true resto
    else c :: colapsarAux false resto

def colapsar (l : List Char) : List Char := colapsarAux false l

def pyLowerStr (s : String) : String := String.mk (s.toList.map pyToLower)

def pyUpperStr (s : String) : String := String.mk (s.toList.map pyToUpper)

/-- normalizar_texto of the source: strip, lower, collapse whitespace runs. -/
def normalizar_texto (s : String) : String :=
  String.mk (colapsar ((stripLista s.toList).map pyToLower))

def ehPrefixo : List Char → List Char → Bool
  | [], _ => true
  | _ :: _, [] => false
  | a :: as, b :: bs => (a == b) && ehPrefixo as bs

def listaContem (agulha : List Char) : List Char → Bool
  | [] => ehPrefixo agulha []
  | b :: bs => ehPrefixo agulha (b :: bs) || listaContem agulha bs

/-- Python substring containment (the in operator on str). -/
def contem (agulha palheiro : String) : Bool :=
  listaContem agulha.toList palheiro.toList

/-! ## Configuration constants of the source -/

def MAX_RETRIES : Nat := 5

def BASE_BACKOFF : ℚ := 2

def STALL_DIAS : Int := 9

def SLA_FRETE : List (String × Int) := [("SEDEX", 7), ("PROMOCIONAL", 15)]

/-- SLA_FRETE.get(frete, 12) of the source. -/
def slaDe (frete : String) : Int := ((SLA_FRETE.lookup frete).getD 12)

/-! ## Failure phrase tables -/

def FALHA_DEVOLUCAO : List String :=
  ["devolução", "devolucao", "retorno", "pacote devolvido", "objeto devolvido",
   "entregue ao remetente", "objeto entregue ao remetente",
   "assinada [devolução]", "[devolução]", "return", "reverse"]

def FALHA_IMPORTACAO : List String :=
  ["importação não autorizada", "pedido não autorizado",
   "devolução determinada pela autoridade competente",
   "falha ao limpar na importação", "retido pela alfândega"]

def FALHA_DESTRUIDO : List String :=
  ["pacote destruído", "objeto destruído"]

/-! ## Classifier helpers -/

def POSITIVOS_ENTREGA : List String :=
  ["entregue ao destinatário", "objeto entregue ao destinatário",
   "entrega realizada com sucesso", "recebido pelo destinatário"]

def NEGATIVOS_ENTREGA : List String :=
  ["remetente", "devolvido", "devolução", "devolucao", "retorno", "return",
   "reverse", "assinatura falhou", "tentativa", "parcial"]

/-- eh_entregue_valido of the source: at least one positive phrase and no
negative phrase in the lowered text. -/
def eh_entregue_valido (texto : String) : Bool :=
  let t := pyLowerStr texto
  (POSITIVOS_ENTREGA.any (fun p => contem p t)) &&
  (!(NEGATIVOS_ENTREGA.any (fun n => contem n t)))

/-- detectar_tipo_falha of the source: scan the three failure tables in order,
first match wins, returning the typed kind and the matched phrase. -/
def detectar_tipo_falha (texto_eventos : String) : Option String × String :=
  let texto := normalizar_texto texto_eventos
  match FALHA_DEVOLUCAO.find? (fun termo => contem (normalizar_texto termo) texto) with
  | some termo => (some "DEVOLUÇÃO", termo)
  | none =>
    match FALHA_IMPORTACAO.find? (fun termo => contem (normalizar_texto termo) texto) with
    | some termo => (some "IMPORTAÇÃO", termo)
    | none =>
      match FALHA_DESTRUIDO.find? (fun termo => contem (normalizar_texto termo) texto) with
      | some termo => (some "DESTRUIDO", termo)
      | none => (none, "")

/-- normalizar_frete of the source.  Unrecognized labels reach the final
fallback and also yield PROMOCIONAL. -/
def normalizar_frete (frete_raw : String) : String :=
  let texto := pyUpperStr frete_raw
  if contem "SEDEX" texto || contem "2 A 5" texto then "SEDEX"
  else if contem "PROMOCIONAL" texto || contem "9 A 12" texto || contem "GRÁTIS" texto then
    "PROMOCIONAL"
  else "PROMOCIONAL"

/-- gerar_hash_evento of the source.  The SHA-1 hex digest is taken as the
parameter sha1hex; the properties proved below use only that the digest is a
function of the joined normalized payload, exactly as the source computes it. -/
def gerar_hash_evento (sha1hex : String → String)
    (status_log data_evento label desc localx : String) : String :=
  sha1hex (String.intercalate "|"
    [normalizar_texto status_log, normalizar_texto data_evento,
     normalizar_texto label, normalizar_texto desc, normalizar_texto localx])

/-! ## Dates: strptime over the accepted formats, and datetime arithmetic -/

/-- A naive Python datetime (wall clock).  parse_data_evento builds these with
year, month, day from the text and the strptime defaults elsewhere. -/
structure PyDateTime where
  ano : Nat
  mes : Nat
  dia : Nat
  hora : Nat
  minuto : Nat
  segundo : Nat
deriving DecidableEq, Repr

/-- One numeric strptime field.  Python strptime matches greedily at most two
digits, with the two-digit value restricted to [lo2, hi2] and a one-digit
value to [lo1, hi1], exactly as the generated regex alternations do; a
two-digit mismatch followed by a one-digit retry can never rescue a parse
because every following token is a non-digit literal or the end check. -/
def numCampo (lo2 hi2 lo1 hi1 : Nat) (xs : List Char) : Option (Nat × List Char) :=
  match xs with
  | [] => none
  | c1 :: resto1 =>
    if c1.isDigit then
      match resto1 with
      | c2 :: resto2 =>
        if c2.isDigit then
          let v := 10 * (c1.toNat - 48) + (c2.toNat - 48)
          if lo2 ≤ v ∧ v ≤ hi2 then some (v, resto2) else none
        else
          let v := c1.toNat - 48
          if lo1 ≤ v ∧ v ≤ hi1 then some (v, resto1) else none
      | [] =>
        let v := c1.toNat - 48
        if lo1 ≤ v ∧ v ≤ hi1 then some (v, []) else none
    else none

/-- The %Y strptime field: exactly four digits. -/
def ano4 (xs : List Char) : Option (Nat × List Char) :=
  match xs with
  | a :: b :: c :: d :: resto =>
    if a.isDigit && b.isDigit && c.isDigit && d.isDigit then
      some (1000 * (a.toNat - 48) + 100 * (b.toNat - 48) + 10 * (c.toNat - 48)
            + (d.toNat - 48), resto)
    else none
  | _ => none

inductive TokFmt where
  | dia | mes | ano | hora | minuto | segundo
  | lit (c : Char)
deriving DecidableEq, Repr

/-- Run one strptime format over the full input; the whole string must be
consumed, as strptime rejects trailing text. -/
def correr : List TokFmt → List Char → PyDateTime → Option PyDateTime
  | [], [], acc => some acc
  | [], _ :: _, _ => none
  | TokFmt.lit c :: ts, xs, acc =>
    match xs with
    | [] => none
    | x :: resto => if x = c then correr ts resto acc else none
  | TokFmt.dia :: ts, xs, acc =>
    match numCampo 1 31 1 9 xs with
    | some (v, resto) =>
      correr ts resto ⟨acc.ano, acc.mes, v, acc.hora, acc.minuto, acc.segundo⟩
    | none => none
  | TokFmt.mes :: ts, xs, acc =>
    match numCampo 1 12 1 9 xs with
    | some (v, resto) =>
      correr ts resto ⟨acc.ano, v, acc.dia, acc.hora, acc.minuto, acc.segundo⟩
    | none => none
  | TokFmt.ano :: ts, xs, acc =>
    match ano4 xs with
    | some (v, resto) =>
      correr ts resto ⟨v, acc.mes, acc.dia, acc.hora, acc.minuto, acc.segundo⟩
    | none => none
  | TokFmt.hora :: ts, xs, acc =>
    match numCampo 0 23 0 9 xs with
    | some (v, resto) =>
      correr ts resto ⟨acc.ano, acc.mes, acc.dia, v, acc.minuto, acc.segundo⟩
    | none => none
  | TokFmt.minuto :: ts, xs, acc =>
    match numCampo 0 59 0 9 xs with
    | some (v, resto) =>
      correr ts resto ⟨acc.ano, acc.mes, acc.dia, acc.hora, v, acc.segundo⟩
    | none => none
  | TokFmt.segundo :: ts, xs, acc =>
    match numCampo 0 59 0 9 xs with
    | some (v, resto) =>
      correr ts resto ⟨acc.ano, acc.mes, acc.dia, acc.hora, acc.minuto, v⟩
    | none => none

def bissexto (a : Nat) : Bool :=
  (a % 4 == 0) && ((a % 100 != 0) || (a % 400 == 0))

def diasNoMes (a m : Nat) : Nat :=
  if m = 2 then (if bissexto a then 29 else 28)
  else if m = 4 ∨ m = 6 ∨ m = 9 ∨ m = 11 then 30
  else 31

/-- One strptime attempt: field scan plus the datetime constructor checks
(MINYEAR and the day fitting the month; month and the clock fields are already
range-checked by the field patterns). -/
def tentarFormato (fmt : List TokFmt) (xs : List Char) : Option PyDateTime :=
  match correr fmt xs ⟨1900, 1, 1, 0, 0, 0⟩ with
  | none => none
  | some c => if 1 ≤ c.ano ∧ c.dia ≤ diasNoMes c.ano c.mes then some c else none

def FORMATOS : List (List TokFmt) :=
  [[TokFmt.dia, TokFmt.lit '/', TokFmt.mes, TokFmt.lit '/', TokFmt.ano],
   [TokFmt.dia, TokFmt.lit '/', TokFmt.mes, TokFmt.lit '/', TokFmt.ano, TokFmt.lit ' ',
    TokFmt.hora, TokFmt.lit ':', TokFmt.minuto],
   [TokFmt.dia, TokFmt.lit '/', TokFmt.mes, TokFmt.lit '/', TokFmt.ano, TokFmt.lit ' ',
    TokFmt.hora, TokFmt.lit ':', TokFmt.minuto, TokFmt.lit ':', TokFmt.segundo],
   [TokFmt.dia, TokFmt.lit '-', TokFmt.mes, TokFmt.lit '-', TokFmt.ano],
   [TokFmt.dia, TokFmt.lit '-', TokFmt.mes, TokFmt.lit '-', TokFmt.ano, TokFmt.lit ' ',
    TokFmt.hora, TokFmt.lit ':', TokFmt.minuto],
   [TokFmt.ano, TokFmt.lit '-', TokFmt.mes, TokFmt.lit '-', TokFmt.dia],
   [TokFmt.ano, TokFmt.lit '-', TokFmt.mes, TokFmt.lit '-', TokFmt.dia, TokFmt.lit ' ',
    TokFmt.hora, TokFmt.lit ':', TokFmt.minuto],
   [TokFmt.ano, TokFmt.lit '-', TokFmt.mes, TokFmt.lit '-', TokFmt.dia, TokFmt.lit ' ',
    TokFmt.hora, TokFmt.lit ':', TokFmt.minuto, TokFmt.lit ':', TokFmt.segundo]]

def primeiroFormato : List (List TokFmt) → List Char → Option PyDateTime
  | [], _ => none
  | f :: fs, xs =>
    match tentarFormato f xs with
    | some dt => some dt
    | none => primeiroFormato fs xs

/-- parse_data_evento of the source: strip, empty means absent, collapse inner
whitespace, then try the format list in order; any failure yields none. -/
def parse_data_evento (data_str : String) : Option PyDateTime :=
  let s := stripStr data_str
  if s = "" then none
  else primeiroFormato FORMATOS (colapsar s.toList)

/-- Proleptic Gregorian day number (arbitrary fixed epoch); only differences
of two values are ever used, mirroring the aware-datetime subtraction. -/
def diasCivis (a m d : Nat) : Int :=
  let ai : Int := a
  let mi : Int := m
  let a2 : Int := if mi ≤ 2 then ai - 1 else ai
  let m2 : Int := if mi ≤ 2 then mi + 12 else mi
  365 * a2 + a2.fdiv 4 - a2.fdiv 100 + a2.fdiv 400 + (153 * (m2 - 3) + 2).fdiv 5 + d - 1

def paraSegundos (dt : PyDateTime) : Int :=
  diasCivis dt.ano dt.mes dt.dia * 86400 + dt.hora * 3600 + dt.minuto * 60 + dt.segundo

/-- (agora - dt).days of the source: floor of the difference in whole days. -/
def diasEntre (agora dt : PyDateTime) : Int :=
  (paraSegundos agora - paraSegundos dt).fdiv 86400

/-! ## Risk evaluator -/

/-- calcular_risco of the source, with datetime.now(TZ) passed as agora and
the default staleness parameter passed explicitly (STALL_DIAS at call sites). -/
def calcular_risco (agora : PyDateTime)
    (status_log data_evento_str data_pedido_str frete : String)
    (dias_sem_atualizacao : Int) : String :=
  let status := pyUpperStr (stripStr status_log)
  if status = "FALHA" ∨ status = "ERRO" then "CRÍTICO"
  else if status = "ENTREGUE" ∨ status = "AGUARDANDO RETIRADA" then "NORMAL"
  else
    let sla := slaDe frete
    let atrasado :=
      match parse_data_evento data_pedido_str with
      | some dt => decide (diasEntre agora dt > sla)
      | none => false
    if atrasado then "ATRASADO"
    else
      let semAtualizacao :=
        match parse_data_evento data_evento_str with
        | some dt => decide (diasEntre agora dt ≥ dias_sem_atualizacao)
        | none => false
      if semAtualizacao then "SEM ATUALIZAÇÃO" else "NORMAL"

/-! ## Write buffer -/

/-- One staged cell mutation (add_update keeps the A1 text of row and column;
the pair is kept unconverted here). -/
structure Update where
  row : Nat
  col : Nat
  value : String
deriving DecidableEq, Repr

/-- add_update of the source: append one staged update to the shared buffer. -/
def add_update (buffer : List Update) (row col : Nat) (value : String) : List Update :=
  buffer ++ [⟨row, col, value⟩]

/-- The retry loop of flush_updates, from attempt t with the given remaining
attempts: each failed attempt sleeps BASE_BACKOFF ** t plus jitter before the
next one (also after the final failed attempt, as in the source).  Returns the
number of batch-update calls made, the successful attempt if any, and the
slept delays in order. -/
def flush_loop (remote : Nat → Bool) (jitter : Nat → ℚ) :
    Nat → Nat → Nat × Option Nat × List ℚ
  | _, 0 => (0, none, [])
  | t, Nat.succ fuel =>
    if remote t then (1, some t, [])
    else
      let r := flush_loop remote jitter (t + 1) fuel
      (r.1 + 1, r.2.1, (BASE_BACKOFF ^ t + jitter t) :: r.2.2)

/-- Observable outcome of one flush_updates call. -/
structure ResultadoFlush where
  tentativas : Nat
  sucesso : Option Nat
  enviado : Option (List Update)
  esperas : List ℚ
  restante : List Update
deriving DecidableEq

/-- flush_updates of the source: an empty buffer returns before any request;
otherwise the pending set is detached (the buffer is left empty whatever
happens next) and the batch is sent with up to MAX_RETRIES attempts; the
successful attempt carries the whole detached batch; exhausting the attempts
drops the batch and reports definitive failure. -/
def flush_updates (remote : Nat → Bool) (jitter : Nat → ℚ)
    (updates : List Update) : ResultadoFlush :=
  if updates = [] then ⟨0, none, none, [], updates⟩
  else
    let r := flush_loop remote jitter 1 MAX_RETRIES
    ⟨r.1, r.2.1, (r.2.1).map (fun _ => updates), r.2.2, []⟩

/-! ## Tracking events and the status classifier -/

/-- The rptn-order-tracking-text sub-element of one event, with the four
best-effort fields that get_text extracts from it (missing ones are ""). -/
structure SubEvento where
  text : String
  date : String
  label : String
  location : String
  descricao : String
deriving DecidableEq, Repr

/-- One rptn-order-tracking-event element: its own text, and its text
sub-element; none models a find_element failure on the sub-element, which the
source surfaces as an exception. -/
structure Evento where
  text : String
  sub : Option SubEvento
deriving DecidableEq, Repr

/-- The texto_historico variable of resolver_status_logistico: the normalized
blank-joined text of the whole event history. -/
def texto_historico (eventos : List Evento) : String :=
  normalizar_texto (String.intercalate " " (eventos.map Evento.text))

def FRASES_RETIRADA : List String :=
  ["aguardando retirada", "objeto disponível para retirada",
   "disponível para retirada"]

/-- resolver_status_logistico of the source.  none models the exceptions the
source can raise here (indexing an empty event list, or a missing text
sub-element), which the caller turns into the technical-error path. -/
def resolver_status_logistico (eventos : List Evento) : Option (String × String) :=
  let th := texto_historico eventos
  let tf := detectar_tipo_falha th
  match tf.1 with
  | some tipo => some ("FALHA", tipo ++ " | " ++ tf.2)
  | none =>
    match eventos with
    | [] => none
    | ev :: _ =>
      match ev.sub with
      | none => none
      | some ultimo =>
        let texto_ultimo := pyLowerStr ultimo.text
        if eh_entregue_valido th then some ("ENTREGUE", "")
        else if FRASES_RETIRADA.any (fun p => contem p texto_ultimo) then
          some ("AGUARDANDO RETIRADA", "")
        else some ("EM TRÂNSITO", "")

/-! ## Row orchestration -/

/-- Python str.startswith. -/
def pyStartsWith (s pre : String) : Bool :=
  ehPrefixo pre.toList s.toList

/-- deve_rastrear of the source (the obs argument is accepted and unused
there as well). -/
def deve_rastrear (status_salvo obs_atual link : String) : Bool × String :=
  let status := pyUpperStr (stripStr status_salvo)
  if status = "ENTREGUE" ∨ status = "FALHA" then (false, "status terminal")
  else if link = "" ∨ ¬ (pyStartsWith link "http") then (false, "link inválido")
  else (true, "rastrear")

/-- The column numbers resolved once per run from the header row.  All but
pedido are 1-based (header.index + 1); pedido is the raw 0-based index, and
dataPedido is none when the header has no DATA column, exactly as in the
source. -/
structure Colunas where
  link : Nat
  obs : Nat
  statusLog : Nat
  dataEvento : Nat
  hash : Nat
  ultimaLeitura : Nat
  risco : Nat
  frete : Nat
  pedido : Nat
  dataPedido : Option Nat
deriving DecidableEq, Repr

/-- The row-cell read pattern of processar_linha:
row[c - 1] if len(row) >= c else "", for the 1-based columns c >= 1 that
header.index + 1 produces (c = 0, which only the optional DATA column could
feed in as a falsy value, reads as "" exactly as the source guard does). -/
def celula (row : List String) (c : Nat) : String :=
  if 1 ≤ c ∧ c ≤ row.length then row.getD (c - 1) "" else ""

def data_pedido_de (cfg : Colunas) (row : List String) : String :=
  match cfg.dataPedido with
  | some c => celula row c
  | none => ""

def montar_obs_falha (motivo_falha label data localx : String) : String :=
  String.intercalate " | " (List.filter (fun p => !(p == ""))
    ["🚨 EVENTO FINAL NO HISTÓRICO — PEDIDO NÃO SERÁ ENTREGUE",
     "Motivo: " ++ motivo_falha,
     "Último status exibido: " ++ label,
     "Data: " ++ data,
     "Local: " ++ localx])

def montar_obs_normal (data label localx desc : String) : String :=
  String.intercalate " | " (List.filter (fun p => !(p == ""))
    ["Data: " ++ data, "Status: " ++ label, "Local: " ++ localx,
     "Descrição: " ++ desc])

/-- The except-branch of processar_linha. -/
def atualizacoes_erro (r : Nat) (cfg : Colunas) : List Update :=
  [⟨r, cfg.statusLog, "ERRO"⟩,
   ⟨r, cfg.obs, "❌ ERRO TÉCNICO — Falha ao consultar rastreio. Reprocessar manualmente."⟩,
   ⟨r, cfg.risco, "CRÍTICO"⟩]

/-- processar_linha of the source, as the list of updates one reconciliation
cycle stages, in staging order.  resultado is the fetch outcome (see the file
header); indice is the index_por_pedido map.  The if row_atual = 0 guard is
the Python truthiness test "if not row_atual". -/
def processar_linha (cfg : Colunas) (sha1hex : String → String)
    (indice : String → Option Nat) (pedido : String) (row : List String)
    (agora_str : String) (agora : PyDateTime)
    (resultado : Option (List Evento)) : List Update :=
  match indice (stripStr pedido) with
  | none => []
  | some row_atual =>
    if row_atual = 0 then [] else
    let data_pedido := data_pedido_de cfg row
    let hash_salvo := celula row cfg.hash
    let status_salvo := celula row cfg.statusLog
    let data_evento_salva := celula row cfg.dataEvento
    let frete := normalizar_frete (celula row cfg.frete)
    let link := stripStr (celula row cfg.link)
    let obs_atual := pyLowerStr (stripStr (celula row cfg.obs))
    let dr := deve_rastrear status_salvo obs_atual link
    if dr.fst = false then
      let risco_atual := calcular_risco agora status_salvo data_evento_salva data_pedido
        frete STALL_DIAS
      ⟨row_atual, cfg.risco, risco_atual⟩ ::
        (if dr.snd = "link inválido" then
          [⟨row_atual, cfg.obs, "⚠️ Link inválido ou vazio"⟩]
         else [])
    else
      ⟨row_atual, cfg.ultimaLeitura, agora_str⟩ ::
      (match resultado with
       | none => atualizacoes_erro row_atual cfg
       | some eventos =>
         if eventos.isEmpty then
           [⟨row_atual, cfg.statusLog, "ERRO"⟩,
            ⟨row_atual, cfg.obs, "❌ ERRO DE RASTREAMENTO — Nenhum evento encontrado"⟩,
            ⟨row_atual, cfg.risco, "CRÍTICO"⟩]
         else
           match resolver_status_logistico eventos with
           | none => atualizacoes_erro row_atual cfg
           | some par =>
             match (eventos.headD ⟨"", none⟩).sub with
             | none => atualizacoes_erro row_atual cfg
             | some ultimo =>
               let status_novo := par.fst
               let motivo_falha := par.snd
               let hash_novo := gerar_hash_evento sha1hex status_novo ultimo.date
                 ultimo.label ultimo.descricao ultimo.location
               let risco_novo := calcular_risco agora status_novo ultimo.date data_pedido
                 frete STALL_DIAS
               let texto_obs :=
                 if motivo_falha ≠ "" then
                   montar_obs_falha motivo_falha ultimo.label ultimo.date ultimo.location
                 else
                   montar_obs_normal ultimo.date ultimo.label ultimo.location
                     ultimo.descricao
               if stripStr hash_salvo = stripStr hash_novo then
                 [⟨row_atual, cfg.risco, risco_novo⟩]
               else
                 [⟨row_atual, cfg.obs, texto_obs⟩,
                  ⟨row_atual, cfg.statusLog, status_novo⟩,
                  ⟨row_atual, cfg.dataEvento, ultimo.date⟩,
                  ⟨row_atual, cfg.hash, hash_novo⟩,
                  ⟨row_atual, cfg.risco, risco_novo⟩])

/-- The index_por_pedido construction loop: sheet row numbers start at 2, a
row enters the index when it is long enough and its stripped identifier is
nonempty, and a later row with the same identifier overwrites an earlier one. -/
def indice_go (colPedido : Nat) : Nat → List (List String) → (String → Option Nat) →
    (String → Option Nat)
  | _, [], m => m
  | i, row :: resto, m =>
    indice_go colPedido (i + 1) resto
      (if colPedido < row.length then
        let pedido := stripStr (row.getD colPedido "")
        if pedido ≠ "" then (fun k => if k = pedido then some i else m k) else m
       else m)

def construir_indice (colPedido : Nat) (linhas : List (List String)) :
    String → Option Nat :=
  indice_go colPedido 2 linhas (fun _ => none)

/-- A snapshot row carries the identifier P: it is long enough and its
stripped pedido cell is the nonempty P. -/
def linhaValida (colPedido : Nat) (P : String) (row : List String) : Prop :=
  colPedido < row.length ∧ stripStr (row.getD colPedido "") = P ∧ P ≠ ""

instance (colPedido : Nat) (P : String) (row : List String) :
    Decidable (linhaValida colPedido P row) := by
  unfold linhaValida; infer_instance

/-! ## Concrete fixtures used by witnesses -/

def agoraTeste : PyDateTime := ⟨2026, 10, 12, 9, 0, 0⟩

/-! ## Claims about the risk evaluator -/

/-- C5: calcular_risco applies its rules in this exact order: FALHA/ERRO
status gives CRÍTICO; else ENTREGUE/AGUARDANDO RETIRADA gives NORMAL; else a
parsed order-placement date strictly older than the SLA gives ATRASADO; else a
parsed latest-event date at least the staleness threshold old gives SEM
ATUALIZAÇÃO; else NORMAL.  Concretely, status EM TRÂNSITO with frete SEDEX
(SLA 7), order placed 10 days before now and latest event 2 days before now,
evaluates to ATRASADO. -/
theorem claim_C5 :
    (∀ agora st ev ped fr dias,
      (pyUpperStr (stripStr st) = "FALHA" ∨ pyUpperStr (stripStr st) = "ERRO") →
      calcular_risco agora st ev ped fr dias = "CRÍTICO") ∧
    (∀ agora st ev ped fr dias,
      ¬(pyUpperStr (stripStr st) = "FALHA" ∨ pyUpperStr (stripStr st) = "ERRO") →
      (pyUpperStr (stripStr st) = "ENTREGUE" ∨
        pyUpperStr (stripStr st) = "AGUARDANDO RETIRADA") →
      calcular_risco agora st ev ped fr dias = "NORMAL") ∧
    (∀ agora st ev ped fr dias dt,
      ¬(pyUpperStr (stripStr st) = "FALHA" ∨ pyUpperStr (stripStr st) = "ERRO") →
      ¬(pyUpperStr (stripStr st) = "ENTREGUE" ∨
        pyUpperStr (stripStr st) = "AGUARDANDO RETIRADA") →
      parse_data_evento ped = some dt → diasEntre agora dt > slaDe fr →
      calcular_risco agora st ev ped fr dias = "ATRASADO") ∧
    (∀ agora st ev ped fr dias dt,
      ¬(pyUpperStr (stripStr st) = "FALHA" ∨ pyUpperStr (stripStr st) = "ERRO") →
      ¬(pyUpperStr (stripStr st) = "ENTREGUE" ∨
        pyUpperStr (stripStr st) = "AGUARDANDO RETIRADA") →
      (∀ dtp, parse_data_evento ped = some dtp → ¬(diasEntre agora dtp > slaDe fr)) →
      parse_data_evento ev = some dt → diasEntre agora dt ≥ dias →
      calcular_risco agora st ev ped fr dias = "SEM ATUALIZAÇÃO") ∧
    (∀ agora st ev ped fr dias,
      ¬(pyUpperStr (stripStr st) = "FALHA" ∨ pyUpperStr (stripStr st) = "ERRO") →
      ¬(pyUpperStr (stripStr st) = "ENTREGUE" ∨
        pyUpperStr (stripStr st) = "AGUARDANDO RETIRADA") →
      (∀ dtp, parse_data_evento ped = some dtp → ¬(diasEntre agora dtp > slaDe fr)) →
      (∀ dte, parse_data_evento ev = some dte → ¬(diasEntre agora dte ≥ dias)) →
      calcular_risco agora st ev ped fr dias = "NORMAL") ∧
    calcular_risco agoraTeste "EM TRÂNSITO" "10/10/2026" "02/10/2026" "SEDEX" 9
      = "ATRASADO" := by
  refine ⟨?_, ?_, ?_, ?_, ?_, by decide⟩
  · intro agora st ev ped fr dias h
    simp only [calcular_risco]
    rw [if_pos h]
  · intro agora st ev ped fr dias h1 h2
    simp only [calcular_risco]
    rw [if_neg h1, if_pos h2]
  · intro agora st ev ped fr dias dt h1 h2 hp hgt
    simp only [calcular_risco]
    rw [if_neg h1, if_neg h2, hp]
    simp [hgt]
  · intro agora st ev ped fr dias dt h1 h2 hped hev hge
    simp only [calcular_risco]
    rw [if_neg h1, if_neg h2, hev]
    cases hp : parse_data_evento ped with
    | none => simp [hge]
    | some dtp =>
      have hnot := hped dtp hp
      simp [hnot, hge]
  · intro agora st ev ped fr dias h1 h2 hped hev
    simp only [calcular_risco]
    rw [if_neg h1, if_neg h2]
    cases hp : parse_data_evento ped with
    | none =>
      cases he : parse_data_evento ev with
      | none => simp
      | some dte => have := hev dte he; simp [this]
    | some dtp =>
      have hnp := hped dtp hp
      cases he : parse_data_evento ev with
      | none => simp [hnp]
      | some dte => have := hev dte he; simp [hnp, this]

theorem claim_C5_witness :
    calcular_risco agoraTeste "FALHA" "" "" "SEDEX" 9 = "CRÍTICO" :=
  claim_C5.1 agoraTeste "FALHA" "" "" "SEDEX" 9 (Or.inl (by decide))

/-- The label patterns normalizar_frete recognizes (upper-cased containment). -/
def PADROES_FRETE : List String := ["SEDEX", "2 A 5", "PROMOCIONAL", "9 A 12", "GRÁTIS"]

/-- C7: a shipping label matching none of the recognized patterns falls to the
fallback PROMOCIONAL, whose SLA_FRETE entry is 15 days, and the delayed branch
of calcular_risco then triggers exactly on a parsed order date older than 15
days. -/
theorem claim_C7 (raw : String)
    (h : ∀ p ∈ PADROES_FRETE, contem p (pyUpperStr raw) = false) :
    normalizar_frete raw = "PROMOCIONAL" ∧
    slaDe (normalizar_frete raw) = 15 ∧
    (∀ agora st ev ped dias dt,
      ¬(pyUpperStr (stripStr st) = "FALHA" ∨ pyUpperStr (stripStr st) = "ERRO") →
      ¬(pyUpperStr (stripStr st) = "ENTREGUE" ∨
        pyUpperStr (stripStr st) = "AGUARDANDO RETIRADA") →
      parse_data_evento ped = some dt →
      (diasEntre agora dt > 15 →
        calcular_risco agora st ev ped (normalizar_frete raw) dias = "ATRASADO") ∧
      (¬(diasEntre agora dt > 15) →
        calcular_risco agora st ev ped (normalizar_frete raw) dias ≠ "ATRASADO")) := by
  have h1 := h "SEDEX" (by simp [PADROES_FRETE])
  have h2 := h "2 A 5" (by simp [PADROES_FRETE])
  have h3 := h "PROMOCIONAL" (by simp [PADROES_FRETE])
  have h4 := h "9 A 12" (by simp [PADROES_FRETE])
  have h5 := h "GRÁTIS" (by simp [PADROES_FRETE])
  have hfr : normalizar_frete raw = "PROMOCIONAL" := by
    simp [normalizar_frete, h1, h2, h3, h4, h5]
  have hsla : slaDe "PROMOCIONAL" = (15 : Int) := by decide
  refine ⟨hfr, by rw [hfr]; exact hsla, ?_⟩
  intro agora st ev ped dias dt hc hf hp
  rw [hfr]
  constructor
  · intro hgt
    simp only [calcular_risco]
    rw [if_neg hc, if_neg hf, hp, hsla]
    simp [hgt]
  · intro hng
    simp only [calcular_risco]
    rw [if_neg hc, if_neg hf, hp, hsla]
    simp only [hng, decide_eq_true_eq, if_false, decide_eq_false_iff_not]
    split <;> decide

theorem claim_C7_witness :
    normalizar_frete "TRANSPORTADORA PARCEIRA" = "PROMOCIONAL" ∧
    slaDe (normalizar_frete "TRANSPORTADORA PARCEIRA") = 15 :=
  ⟨(claim_C7 "TRANSPORTADORA PARCEIRA" (by decide)).1,
   (claim_C7 "TRANSPORTADORA PARCEIRA" (by decide)).2.1⟩

/-- C8 counterexample: a row whose status is FALHA and whose two dates are both
absent evaluates to CRÍTICO, not NORMAL, refuting the claim that every row
with unparsable dates evaluates to NORMAL. -/
theorem claim_C8_contra :
    parse_data_evento "" = none ∧
    calcular_risco agoraTeste "FALHA" "" "" "SEDEX" 9 = "CRÍTICO" ∧
    calcular_risco agoraTeste "FALHA" "" "" "SEDEX" 9 ≠ "NORMAL" := by
  decide

/-- C8 (amended): with both dates absent or unparsable, risk evaluation is
total (the Lean model is a total function, mirroring that parse_data_evento
swallows every parse error) and returns NORMAL whenever the stored status is
not one of the critical pair FALHA/ERRO, which instead short-circuits to
CRÍTICO before any date is consulted; unparsable dates skip the delayed and
stale branches rather than fault. -/
theorem claim_C8 (agora : PyDateTime) (st ev ped fr : String) (dias : Int)
    (hped : parse_data_evento ped = none) (hev : parse_data_evento ev = none) :
    (¬(pyUpperStr (stripStr st) = "FALHA" ∨ pyUpperStr (stripStr st) = "ERRO") →
      calcular_risco agora st ev ped fr dias = "NORMAL") ∧
    ((pyUpperStr (stripStr st) = "FALHA" ∨ pyUpperStr (stripStr st) = "ERRO") →
      calcular_risco agora st ev ped fr dias = "CRÍTICO") := by
  constructor
  · intro hc
    simp only [calcular_risco]
    rw [if_neg hc]
    by_cases hf : pyUpperStr (stripStr st) = "ENTREGUE" ∨
        pyUpperStr (stripStr st) = "AGUARDANDO RETIRADA"
    · rw [if_pos hf]
    · rw [if_neg hf, hped, hev]
      simp
  · intro hc
    simp only [calcular_risco]
    rw [if_pos hc]

theorem claim_C8_witness :
    calcular_risco agoraTeste "EM TRÂNSITO" "" "" "SEDEX" 9 = "NORMAL" :=
  (claim_C8 agoraTeste "EM TRÂNSITO" "" "" "SEDEX" 9 (by decide) (by decide)).1
    (by decide)

/-! ## Claims about the event classifier -/

/-- The event history contains some phrase of the three failure tables, under
the same normalization detectar_tipo_falha applies when scanning. -/
def tem_frase_falha (texto : String) : Bool :=
  (FALHA_DEVOLUCAO ++ FALHA_IMPORTACAO ++ FALHA_DESTRUIDO).any
    (fun termo => contem (normalizar_texto termo) (normalizar_texto texto))

/-- C1: whenever the normalized concatenated history contains any failure
phrase, resolver_status_logistico returns FALHA with a typed failure kind and
the matched phrase, before (and regardless of) the delivered, awaiting-pickup
and in-transit checks and regardless of the other events in the history. -/
theorem claim_C1 (eventos : List Evento)
    (h : tem_frase_falha (texto_historico eventos) = true) :
    ∃ tipo termo,
      ((tipo = "DEVOLUÇÃO" ∧ termo ∈ FALHA_DEVOLUCAO) ∨
       (tipo = "IMPORTAÇÃO" ∧ termo ∈ FALHA_IMPORTACAO) ∨
       (tipo = "DESTRUIDO" ∧ termo ∈ FALHA_DESTRUIDO)) ∧
      detectar_tipo_falha (texto_historico eventos) = (some tipo, termo) ∧
      resolver_status_logistico eventos = some ("FALHA", tipo ++ " | " ++ termo) ∧
      contem (normalizar_texto termo)
        (normalizar_texto (texto_historico eventos)) = true := by
  cases hA : FALHA_DEVOLUCAO.find?
      (fun termo => contem (normalizar_texto termo)
        (normalizar_texto (texto_historico eventos))) with
  | some t =>
    have hp := List.find?_some hA
    have hm := List.mem_of_find?_eq_some hA
    have hd : detectar_tipo_falha (texto_historico eventos) = (some "DEVOLUÇÃO", t) := by
      simp only [detectar_tipo_falha]
      rw [hA]
    refine ⟨"DEVOLUÇÃO", t, Or.inl ⟨rfl, hm⟩, hd, ?_, hp⟩
    simp only [resolver_status_logistico]
    rw [hd]
  | none =>
    cases hB : FALHA_IMPORTACAO.find?
        (fun termo => contem (normalizar_texto termo)
          (normalizar_texto (texto_historico eventos))) with
    | some t =>
      have hp := List.find?_some hB
      have hm := List.mem_of_find?_eq_some hB
      have hd : detectar_tipo_falha (texto_historico eventos)
          = (some "IMPORTAÇÃO", t) := by
        simp only [detectar_tipo_falha]
        rw [hA, hB]
      refine ⟨"IMPORTAÇÃO", t, Or.inr (Or.inl ⟨rfl, hm⟩), hd, ?_, hp⟩
      simp only [resolver_status_logistico]
      rw [hd]
    | none =>
      cases hC : FALHA_DESTRUIDO.find?
          (fun termo => contem (normalizar_texto termo)
            (normalizar_texto (texto_historico eventos))) with
      | some t =>
        have hp := List.find?_some hC
        have hm := List.mem_of_find?_eq_some hC
        have hd : detectar_tipo_falha (texto_historico eventos)
            = (some "DESTRUIDO", t) := by
          simp only [detectar_tipo_falha]
          rw [hA, hB, hC]
        refine ⟨"DESTRUIDO", t, Or.inr (Or.inr ⟨rfl, hm⟩), hd, ?_, hp⟩
        simp only [resolver_status_logistico]
        rw [hd]
      | none =>
        exfalso
        simp only [tem_frase_falha, List.any_eq_true] at h
        obtain ⟨x, hx, hpx⟩ := h
        rcases List.mem_append.mp hx with hxab | hxc
        · rcases List.mem_append.mp hxab with hxa | hxb
          · exact absurd hpx (List.find?_eq_none.mp hA x hxa)
          · exact absurd hpx (List.find?_eq_none.mp hB x hxb)
        · exact absurd hpx (List.find?_eq_none.mp hC x hxc)

/-- The spec's concrete failure scenario: two transit events followed by the
phrase "objeto devolvido" (histories are newest first, so the failure event
sits behind benign later events). -/
def eventosTesteFalha : List Evento :=
  [⟨"Saiu para entrega ao destinatário", some ⟨"saiu para entrega", "11/10/2026", "Saiu", "SP", ""⟩⟩,
   ⟨"Em trânsito para unidade", some ⟨"em trânsito", "10/10/2026", "Trânsito", "SP", ""⟩⟩,
   ⟨"Objeto devolvido ao remetente", some ⟨"objeto devolvido", "09/10/2026", "Devolvido", "SP", ""⟩⟩]

theorem claim_C1_witness :
    tem_frase_falha (texto_historico eventosTesteFalha) = true ∧
    ∃ tipo termo,
      ((tipo = "DEVOLUÇÃO" ∧ termo ∈ FALHA_DEVOLUCAO) ∨
       (tipo = "IMPORTAÇÃO" ∧ termo ∈ FALHA_IMPORTACAO) ∨
       (tipo = "DESTRUIDO" ∧ termo ∈ FALHA_DESTRUIDO)) ∧
      detectar_tipo_falha (texto_historico eventosTesteFalha) = (some tipo, termo) ∧
      resolver_status_logistico eventosTesteFalha = some ("FALHA", tipo ++ " | " ++ termo) ∧
      contem (normalizar_texto termo)
        (normalizar_texto (texto_historico eventosTesteFalha)) = true :=
  ⟨by decide, claim_C1 eventosTesteFalha (by decide)⟩

/-- C6: with no failure phrase in the history (and the classifier completing
normally, i.e. not raising on a missing DOM sub-element), the classifier
returns ENTREGUE exactly when the full normalized history text contains at
least one positive delivered phrase and no negative phrase. -/
theorem claim_C6 (eventos : List Evento)
    (hnf : (detectar_tipo_falha (texto_historico eventos)).1 = none)
    (hok : resolver_status_logistico eventos ≠ none) :
    resolver_status_logistico eventos = some ("ENTREGUE", "") ↔
      (POSITIVOS_ENTREGA.any
          (fun p => contem p (pyLowerStr (texto_historico eventos))) = true ∧
       NEGATIVOS_ENTREGA.any
          (fun n => contem n (pyLowerStr (texto_historico eventos))) = false) := by
  cases eventos with
  | nil =>
    exfalso
    apply hok
    simp only [resolver_status_logistico]
    rw [hnf]
  | cons ev resto =>
    cases hsub : ev.sub with
    | none =>
      exfalso
      apply hok
      simp only [resolver_status_logistico]
      rw [hnf, hsub]
    | some ultimo =>
      by_cases he : eh_entregue_valido (texto_historico (ev :: resto)) = true
      · have he' := he
        simp only [eh_entregue_valido, Bool.and_eq_true, Bool.not_eq_true'] at he'
        refine iff_of_true ?_ he'
        simp only [resolver_status_logistico]
        rw [hnf, hsub]
        simp [he]
      · have he' : ¬(POSITIVOS_ENTREGA.any
            (fun p => contem p (pyLowerStr (texto_historico (ev :: resto)))) = true ∧
            NEGATIVOS_ENTREGA.any
            (fun n => contem n (pyLowerStr (texto_historico (ev :: resto)))) = false) := by
          intro ⟨hp, hn⟩
          exact he (by simp [eh_entregue_valido, hp, hn])
        refine iff_of_false ?_ he'
        simp only [resolver_status_logistico]
        rw [hnf, hsub]
        simp only [he, if_false]
        split
        · simp_all
        · split <;> decide

/-- A delivered history with a positive phrase and no negative phrase. -/
def eventosTesteEntrega : List Evento :=
  [⟨"Objeto entregue ao destinatário", some
    ⟨"objeto entregue ao destinatário", "09/10/2026", "Entregue", "SP", ""⟩⟩]

theorem claim_C6_witness :
    resolver_status_logistico eventosTesteEntrega = some ("ENTREGUE", "") :=
  (claim_C6 eventosTesteEntrega (by decide) (by decide)).mpr ⟨by decide, by decide⟩

/-! ## Claims about the write buffer -/

lemma flush_loop_falhas (remote : Nat → Bool) (jitter : Nat → ℚ) :
    ∀ fuel t, (∀ i, i < fuel → remote (t + i) = false) →
    flush_loop remote jitter t fuel =
      (fuel, none, (List.range fuel).map
        (fun i => BASE_BACKOFF ^ (t + i) + jitter (t + i))) := by
  intro fuel
  induction fuel with
  | zero => intro t _; simp [flush_loop]
  | succ f ih =>
    intro t h
    have h0 : remote t = false := by
      have := h 0 (Nat.succ_pos f)
      simpa using this
    have hshift : ∀ i, i < f → remote (t + 1 + i) = false := by
      intro i hi
      have := h (i + 1) (by omega)
      rwa [show t + (i + 1) = t + 1 + i by omega] at this
    have harith : ∀ i : Nat, t + 1 + i = t + (i + 1) := by omega
    simp only [flush_loop, h0, if_false, Bool.false_eq_true]
    rw [ih (t + 1) hshift]
    simp [List.range_succ_eq_map, List.map_map, Function.comp, harith]

lemma flush_loop_sucesso (remote : Nat → Bool) (jitter : Nat → ℚ) :
    ∀ k fuel t, k < fuel → (∀ i, i < k → remote (t + i) = false) →
    remote (t + k) = true →
    flush_loop remote jitter t fuel =
      (k + 1, some (t + k), (List.range k).map
        (fun i => BASE_BACKOFF ^ (t + i) + jitter (t + i))) := by
  intro k
  induction k with
  | zero =>
    intro fuel t hk _ hs
    cases fuel with
    | zero => omega
    | succ f =>
      rw [Nat.add_zero] at hs
      simp [flush_loop, hs]
  | succ k ih =>
    intro fuel t hk hfail hs
    cases fuel with
    | zero => omega
    | succ f =>
      have h0 : remote t = false := by
        have := hfail 0 (Nat.succ_pos k)
        simpa using this
      have hshift : ∀ i, i < k → remote (t + 1 + i) = false := by
        intro i hi
        have := hfail (i + 1) (by omega)
        rwa [show t + (i + 1) = t + 1 + i by omega] at this
      have hs' : remote (t + 1 + k) = true := by
        rwa [show t + (k + 1) = t + 1 + k by omega] at hs
      have harith : ∀ i : Nat, t + 1 + i = t + (i + 1) := by omega
      simp only [flush_loop, h0, if_false, Bool.false_eq_true]
      rw [ih f (t + 1) (by omega) hshift hs']
      rw [show t + 1 + k = t + (k + 1) by omega]
      simp [List.range_succ_eq_map, List.map_map, Function.comp, harith]

/-- C3: flushing an empty buffer issues no remote request; flushing a
non-empty buffer detaches it (the buffer is empty afterwards in every case)
and sends it as one batch: if the remote store fails transiently on the first
k attempts (k + 1 within the MAX_RETRIES ceiling) and succeeds on attempt
k + 1, exactly one successful batched write carrying every staged update is
observed, after k backoff delays of BASE_BACKOFF ** t plus jitter between
consecutive attempts; if all MAX_RETRIES attempts fail, exactly MAX_RETRIES
attempts are made, no write succeeds, the batch is dropped and definitive
failure is reported. -/
theorem claim_C3 (remote : Nat → Bool) (jitter : Nat → ℚ) :
    flush_updates remote jitter [] = ⟨0, none, none, [], []⟩ ∧
    (∀ (batch : List Update) k, batch ≠ [] → k + 1 ≤ MAX_RETRIES →
      (∀ t, t ≤ k → 1 ≤ t → remote t = false) → remote (k + 1) = true →
      flush_updates remote jitter batch =
        ⟨k + 1, some (k + 1), some batch,
         (List.range k).map (fun i => BASE_BACKOFF ^ (i + 1) + jitter (i + 1)), []⟩) ∧
    (∀ batch : List Update, batch ≠ [] →
      (∀ t, t ≤ MAX_RETRIES → 1 ≤ t → remote t = false) →
      flush_updates remote jitter batch =
        ⟨MAX_RETRIES, none, none,
         (List.range MAX_RETRIES).map
           (fun i => BASE_BACKOFF ^ (i + 1) + jitter (i + 1)), []⟩) := by
  refine ⟨by simp [flush_updates], ?_, ?_⟩
  · intro batch k hne hk hfail hs
    have hfail' : ∀ i, i < k → remote (1 + i) = false := by
      intro i hi
      exact hfail (1 + i) (by omega) (by omega)
    have hs' : remote (1 + k) = true := by
      rwa [show 1 + k = k + 1 by omega]
    have harith : ∀ i : Nat, 1 + i = i + 1 := by omega
    simp only [flush_updates, if_neg hne]
    rw [flush_loop_sucesso remote jitter k MAX_RETRIES 1 (by omega) hfail' hs']
    simp [harith]
  · intro batch hne hfail
    have hfail' : ∀ i, i < MAX_RETRIES → remote (1 + i) = false := by
      intro i hi
      exact hfail (1 + i) (by omega) (by omega)
    have harith : ∀ i : Nat, 1 + i = i + 1 := by omega
    simp only [flush_updates, if_neg hne]
    rw [flush_loop_falhas remote jitter MAX_RETRIES 1 hfail']
    simp [harith]

/-- The three staged updates of the spec's flush scenario. -/
def bufferTeste : List Update :=
  add_update (add_update (add_update [] 2 8 "NORMAL") 3 8 "ATRASADO") 4 8 "CRÍTICO"

theorem claim_C3_witness :
    flush_updates (fun t => t == 3) (fun _ => 1 / 2) bufferTeste =
      ⟨3, some 3, some bufferTeste,
       (List.range 2).map (fun i => BASE_BACKOFF ^ (i + 1) + (fun _ : Nat => (1 : ℚ) / 2) (i + 1)),
       []⟩ :=
  (claim_C3 (fun t => t == 3) (fun _ => 1 / 2)).2.1 bufferTeste 2 (by decide)
    (by decide) (by decide) (by decide)

/-! ## Claims about one reconciliation cycle -/

/-- Every update a cycle stages targets the row position the index resolved
for the identifier (the single row_atual of the source). -/
lemma processar_linha_mesma_linha (cfg : Colunas) (sha1hex : String → String)
    (indice : String → Option Nat) (pedido : String) (row : List String)
    (agora_str : String) (agora : PyDateTime) (resultado : Option (List Evento))
    (r : Nat) (h : indice (stripStr pedido) = some r) :
    ∀ u ∈ processar_linha cfg sha1hex indice pedido row agora_str agora resultado,
      u.row = r := by
  have hall : (processar_linha cfg sha1hex indice pedido row agora_str agora
      resultado).all (fun u => u.row == r) = true := by
    simp only [processar_linha, h]
    by_cases hr : r = 0
    · simp [hr]
    · rw [if_neg hr]
      split
      · split <;> simp
      · cases resultado with
        | none => simp [atualizacoes_erro]
        | some eventos =>
          cases eventos with
          | nil => simp
          | cons e resto =>
            simp only [List.isEmpty_cons, List.headD_cons]
            cases hres : resolver_status_logistico (e :: resto) with
            | none => simp [atualizacoes_erro]
            | some par =>
              cases hsub : e.sub with
              | none => simp [atualizacoes_erro]
              | some ultimo =>
                split
                · simp
                · split
                  · simp_all
                  · split
                    · simp_all
                    · split <;> simp
  intro u hu
  have := List.all_eq_true.mp hall u hu
  simpa using this

set_option maxHeartbeats 1000000 in
/-- C2: for an eligible row whose fetched latest event carries the same
normalized (status, date, label, description, location) tuple as the one the
previous run hashed into the stored hash cell, the newly computed hash equals
the stored hash, and the cycle stages exactly the last-read timestamp and the
recomputed risk tier: no observation, status, event-date or hash update. -/
theorem claim_C2 (cfg : Colunas) (sha1hex : String → String)
    (indice : String → Option Nat) (pedido : String) (row : List String)
    (agora_str : String) (agora : PyDateTime) (e : Evento) (resto : List Evento)
    (ultimo : SubEvento) (r : Nat) (status_novo motivo : String)
    (st0 d0 l0 ds0 lc0 : String)
    (hind : indice (stripStr pedido) = some r) (hr : r ≠ 0)
    (helig : (deve_rastrear (celula row cfg.statusLog)
      (pyLowerStr (stripStr (celula row cfg.obs)))
      (stripStr (celula row cfg.link))).1 = true)
    (hres : resolver_status_logistico (e :: resto) = some (status_novo, motivo))
    (hsub : e.sub = some ultimo)
    (hhash : celula row cfg.hash = gerar_hash_evento sha1hex st0 d0 l0 ds0 lc0)
    (h1 : normalizar_texto st0 = normalizar_texto status_novo)
    (h2 : normalizar_texto d0 = normalizar_texto ultimo.date)
    (h3 : normalizar_texto l0 = normalizar_texto ultimo.label)
    (h4 : normalizar_texto ds0 = normalizar_texto ultimo.descricao)
    (h5 : normalizar_texto lc0 = normalizar_texto ultimo.location) :
    gerar_hash_evento sha1hex status_novo ultimo.date ultimo.label ultimo.descricao
      ultimo.location = celula row cfg.hash ∧
    processar_linha cfg sha1hex indice pedido row agora_str agora (some (e :: resto)) =
      [⟨r, cfg.ultimaLeitura, agora_str⟩,
       ⟨r, cfg.risco, calcular_risco agora status_novo ultimo.date
         (data_pedido_de cfg row) (normalizar_frete (celula row cfg.frete))
         STALL_DIAS⟩] := by
  have hh : gerar_hash_evento sha1hex status_novo ultimo.date ultimo.label
      ultimo.descricao ultimo.location = celula row cfg.hash := by
    rw [hhash]
    simp only [gerar_hash_evento]
    rw [h1, h2, h3, h4, h5]
  refine ⟨hh, ?_⟩
  have hneg : ¬((deve_rastrear (celula row cfg.statusLog)
      (pyLowerStr (stripStr (celula row cfg.obs)))
      (stripStr (celula row cfg.link))).1 = false) := by
    simp [helig]
  simp only [processar_linha, hind]
  rw [if_neg hr, if_neg hneg]
  simp only [List.isEmpty_cons, Bool.false_eq_true, if_false, List.headD_cons]
  rw [hres, hsub]
  simp [hh]

/-- Column layout of the witness rows: PEDIDO at 0-based 0; LINK..DATA in
1-based columns 2..10. -/
def cfgTeste : Colunas := ⟨2, 3, 4, 5, 6, 7, 8, 9, 0, some 10⟩

def rowTeste : List String :=
  ["P-1", "https://rastreio.example/x", "", "EM TRÂNSITO", "10/10/2026",
   "em trânsito|10/10/2026|em trânsito|indo|sp", "", "NORMAL", "SEDEX", "01/10/2026"]

def evTeste : Evento :=
  ⟨"10/10/2026 Em trânsito indo SP",
   some ⟨"objeto em trânsito", "10/10/2026", "Em trânsito", "SP", "indo"⟩⟩

def indiceTeste : String → Option Nat := fun k => if k = "P-1" then some 2 else none

theorem claim_C2_witness :
    processar_linha cfgTeste (fun s => s) indiceTeste "P-1" rowTeste
      "2026-10-12T09:00:00-03:00" agoraTeste (some [evTeste]) =
      [⟨2, 7, "2026-10-12T09:00:00-03:00"⟩, ⟨2, 8, "ATRASADO"⟩] := by
  have h := claim_C2 cfgTeste (fun s => s) indiceTeste "P-1" rowTeste
    "2026-10-12T09:00:00-03:00" agoraTeste evTeste []
    ⟨"objeto em trânsito", "10/10/2026", "Em trânsito", "SP", "indo"⟩ 2
    "EM TRÂNSITO" "" "EM TRÂNSITO" "10/10/2026" "Em trânsito" "indo" "SP"
    (by decide) (by decide) (by decide) (by decide) (by decide) (by decide)
    rfl rfl rfl rfl rfl
  rw [h.2]
  decide

/-- C4: a row whose stored logistics status is terminal (ENTREGUE or FALHA) is
excluded by deve_rastrear with the status-terminal motive before any fetch:
the staged updates do not depend on the fetch outcome at all, consist of the
single recomputed risk-tier cell, and in particular never touch the status
cell, so the row stays terminal for every later run too. -/
theorem claim_C4 (cfg : Colunas) (sha1hex : String → String)
    (indice : String → Option Nat) (pedido : String) (row : List String)
    (agora_str : String) (agora : PyDateTime) (r : Nat)
    (hterm : pyUpperStr (stripStr (celula row cfg.statusLog)) = "ENTREGUE" ∨
             pyUpperStr (stripStr (celula row cfg.statusLog)) = "FALHA")
    (hind : indice (stripStr pedido) = some r) (hr : r ≠ 0) :
    deve_rastrear (celula row cfg.statusLog)
      (pyLowerStr (stripStr (celula row cfg.obs)))
      (stripStr (celula row cfg.link)) = (false, "status terminal") ∧
    (∀ resultado, processar_linha cfg sha1hex indice pedido row agora_str agora resultado =
      [⟨r, cfg.risco, calcular_risco agora (celula row cfg.statusLog)
        (celula row cfg.dataEvento) (data_pedido_de cfg row)
        (normalizar_frete (celula row cfg.frete)) STALL_DIAS⟩]) ∧
    (∀ resultado resultado',
      processar_linha cfg sha1hex indice pedido row agora_str agora resultado =
      processar_linha cfg sha1hex indice pedido row agora_str agora resultado') ∧
    (cfg.statusLog ≠ cfg.risco →
      ∀ resultado, ∀ u ∈ processar_linha cfg sha1hex indice pedido row agora_str
        agora resultado, u.col ≠ cfg.statusLog) := by
  have hdr : deve_rastrear (celula row cfg.statusLog)
      (pyLowerStr (stripStr (celula row cfg.obs)))
      (stripStr (celula row cfg.link)) = (false, "status terminal") := by
    simp only [deve_rastrear]
    rw [if_pos hterm]
  have hproc : ∀ resultado,
      processar_linha cfg sha1hex indice pedido row agora_str agora resultado =
      [⟨r, cfg.risco, calcular_risco agora (celula row cfg.statusLog)
        (celula row cfg.dataEvento) (data_pedido_de cfg row)
        (normalizar_frete (celula row cfg.frete)) STALL_DIAS⟩] := by
    intro resultado
    simp only [processar_linha, hind]
    rw [if_neg hr, hdr]
    simp
  refine ⟨hdr, hproc, fun a b => by rw [hproc a, hproc b], ?_⟩
  intro hne resultado u hu
  rw [hproc resultado] at hu
  simp only [List.mem_singleton] at hu
  subst hu
  intro hcol
  exact hne hcol.symm

def rowTesteEntregue : List String :=
  ["P-2", "https://rastreio.example/y", "", "ENTREGUE", "09/10/2026",
   "h0", "", "NORMAL", "SEDEX", "01/10/2026"]

def indiceTesteEntregue : String → Option Nat :=
  fun k => if k = "P-2" then some 3 else none

theorem claim_C4_witness :
    deve_rastrear (celula rowTesteEntregue cfgTeste.statusLog)
      (pyLowerStr (stripStr (celula rowTesteEntregue cfgTeste.obs)))
      (stripStr (celula rowTesteEntregue cfgTeste.link)) = (false, "status terminal") ∧
    processar_linha cfgTeste (fun s => s) indiceTesteEntregue "P-2" rowTesteEntregue
      "2026-10-12T09:00:00-03:00" agoraTeste none =
    processar_linha cfgTeste (fun s => s) indiceTesteEntregue "P-2" rowTesteEntregue
      "2026-10-12T09:00:00-03:00" agoraTeste (some [evTeste]) :=
  ⟨(claim_C4 cfgTeste (fun s => s) indiceTesteEntregue "P-2" rowTesteEntregue
      "2026-10-12T09:00:00-03:00" agoraTeste 3 (by decide) (by decide) (by decide)).1,
   (claim_C4 cfgTeste (fun s => s) indiceTesteEntregue "P-2" rowTesteEntregue
      "2026-10-12T09:00:00-03:00" agoraTeste 3 (by decide) (by decide) (by decide)).2.2.1
      none (some [evTeste])⟩

/-- C9: an eligible row whose fetch finds no events stages exactly the
last-read timestamp, status ERRO, the tracking-error observation and risk
CRÍTICO, and in particular (for distinct columns) nothing in the hash or
event-date cells. -/
theorem claim_C9 (cfg : Colunas) (sha1hex : String → String)
    (indice : String → Option Nat) (pedido : String) (row : List String)
    (agora_str : String) (agora : PyDateTime) (r : Nat)
    (hind : indice (stripStr pedido) = some r) (hr : r ≠ 0)
    (helig : (deve_rastrear (celula row cfg.statusLog)
      (pyLowerStr (stripStr (celula row cfg.obs)))
      (stripStr (celula row cfg.link))).1 = true) :
    processar_linha cfg sha1hex indice pedido row agora_str agora (some []) =
      [⟨r, cfg.ultimaLeitura, agora_str⟩,
       ⟨r, cfg.statusLog, "ERRO"⟩,
       ⟨r, cfg.obs, "❌ ERRO DE RASTREAMENTO — Nenhum evento encontrado"⟩,
       ⟨r, cfg.risco, "CRÍTICO"⟩] ∧
    (cfg.hash ≠ cfg.ultimaLeitura → cfg.hash ≠ cfg.statusLog →
     cfg.hash ≠ cfg.obs → cfg.hash ≠ cfg.risco →
      ∀ u ∈ processar_linha cfg sha1hex indice pedido row agora_str agora (some []),
        u.col ≠ cfg.hash) ∧
    (cfg.dataEvento ≠ cfg.ultimaLeitura → cfg.dataEvento ≠ cfg.statusLog →
     cfg.dataEvento ≠ cfg.obs → cfg.dataEvento ≠ cfg.risco →
      ∀ u ∈ processar_linha cfg sha1hex indice pedido row agora_str agora (some []),
        u.col ≠ cfg.dataEvento) := by
  have hneg : ¬((deve_rastrear (celula row cfg.statusLog)
      (pyLowerStr (stripStr (celula row cfg.obs)))
      (stripStr (celula row cfg.link))).1 = false) := by
    simp [helig]
  have hproc : processar_linha cfg sha1hex indice pedido row agora_str agora (some []) =
      [⟨r, cfg.ultimaLeitura, agora_str⟩,
       ⟨r, cfg.statusLog, "ERRO"⟩,
       ⟨r, cfg.obs, "❌ ERRO DE RASTREAMENTO — Nenhum evento encontrado"⟩,
       ⟨r, cfg.risco, "CRÍTICO"⟩] := by
    simp only [processar_linha, hind]
    rw [if_neg hr, if_neg hneg]
    simp
  refine ⟨hproc, ?_, ?_⟩
  · intro n1 n2 n3 n4 u hu
    rw [hproc] at hu
    simp only [List.mem_cons, List.not_mem_nil, or_false] at hu
    rcases hu with rfl | rfl | rfl | rfl
    · exact fun h => n1 h.symm
    · exact fun h => n2 h.symm
    · exact fun h => n3 h.symm
    · exact fun h => n4 h.symm
  · intro n1 n2 n3 n4 u hu
    rw [hproc] at hu
    simp only [List.mem_cons, List.not_mem_nil, or_false] at hu
    rcases hu with rfl | rfl | rfl | rfl
    · exact fun h => n1 h.symm
    · exact fun h => n2 h.symm
    · exact fun h => n3 h.symm
    · exact fun h => n4 h.symm

theorem claim_C9_witness :
    processar_linha cfgTeste (fun s => s) indiceTeste "P-1" rowTeste
      "2026-10-12T09:00:00-03:00" agoraTeste (some []) =
      [⟨2, cfgTeste.ultimaLeitura, "2026-10-12T09:00:00-03:00"⟩,
       ⟨2, cfgTeste.statusLog, "ERRO"⟩,
       ⟨2, cfgTeste.obs, "❌ ERRO DE RASTREAMENTO — Nenhum evento encontrado"⟩,
       ⟨2, cfgTeste.risco, "CRÍTICO"⟩] :=
  (claim_C9 cfgTeste (fun s => s) indiceTeste "P-1" rowTeste
    "2026-10-12T09:00:00-03:00" agoraTeste 2 (by decide) (by decide) (by decide)).1

/-! ## Claims about the identifier index -/

lemma indice_go_nenhuma (colPedido : Nat) :
    ∀ (linhas : List (List String)) (i : Nat) (m : String → Option Nat) (P : String),
    (∀ rr ∈ linhas, ¬ linhaValida colPedido P rr) →
    indice_go colPedido i linhas m P = m P := by
  intro linhas
  induction linhas with
  | nil => intro i m P _; rfl
  | cons row resto ih =>
    intro i m P h
    have hrow := h row (List.mem_cons_self row resto)
    have hresto : ∀ rr ∈ resto, ¬ linhaValida colPedido P rr :=
      fun rr hrr => h rr (List.mem_cons_of_mem row hrr)
    simp only [indice_go]
    rw [ih (i + 1) _ P hresto]
    by_cases hlen : colPedido < row.length
    · by_cases hped : stripStr (row.getD colPedido "") ≠ ""
      · have hne : P ≠ stripStr (row.getD colPedido "") := by
          intro he
          exact hrow ⟨hlen, he.symm, by rw [he]; exact hped⟩
        rw [if_pos hlen, if_pos hped]
        show (if P = stripStr (row.getD colPedido "") then some i else m P) = m P
        rw [if_neg hne]
      · rw [if_pos hlen, if_neg hped]
    · rw [if_neg hlen]

lemma indice_go_ultima (colPedido : Nat) :
    ∀ (linhas : List (List String)) (j i : Nat) (m : String → Option Nat) (P : String),
    j < linhas.length →
    linhaValida colPedido P (linhas.getD j []) →
    (∀ k, k < linhas.length → j < k → ¬ linhaValida colPedido P (linhas.getD k [])) →
    indice_go colPedido i linhas m P = some (i + j) := by
  intro linhas
  induction linhas with
  | nil => intro j i m P hj; exact absurd hj (by simp)
  | cons row resto ih =>
    intro j i m P hj hv hlast
    cases j with
    | zero =>
      have hv0 : linhaValida colPedido P row := by simpa using hv
      obtain ⟨hlen, heq, hne⟩ := hv0
      have hresto : ∀ rr ∈ resto, ¬ linhaValida colPedido P rr := by
        intro rr hrr
        obtain ⟨n, hn, hrr_eq⟩ := List.mem_iff_getElem.mp hrr
        have hk := hlast (n + 1) (by simpa using by omega) (by omega)
        have hget : (row :: resto).getD (n + 1) [] = rr := by
          rw [List.getD_cons_succ]
          rw [List.getD_eq_getElem?_getD, List.getElem?_eq_getElem hn]
          simpa using hrr_eq
        rwa [hget] at hk
      simp only [indice_go]
      rw [indice_go_nenhuma colPedido resto (i + 1) _ P hresto]
      have hpedne : stripStr (row.getD colPedido "") ≠ "" := by rw [heq]; exact hne
      rw [if_pos hlen, if_pos hpedne, ← heq]
      show (if stripStr (row.getD colPedido "") = stripStr (row.getD colPedido "")
          then some i else m (stripStr (row.getD colPedido ""))) = some i
      rw [if_pos rfl]
    | succ j' =>
      have hv' : linhaValida colPedido P (resto.getD j' []) := by
        rwa [List.getD_cons_succ] at hv
      have hj' : j' < resto.length := by simpa using hj
      have hlast' : ∀ k, k < resto.length → j' < k →
          ¬ linhaValida colPedido P (resto.getD k []) := by
        intro k hk hjk
        have := hlast (k + 1) (by simpa using hk) (by omega)
        rwa [List.getD_cons_succ] at this
      simp only [indice_go]
      rw [ih j' (i + 1) _ P hj' hv' hlast']
      congr 1
      omega

/-- C10: when several snapshot rows carry the same nonempty identifier P, the
index maps P to the sheet row (position + 2) of the last such row, and every
update staged by a reconciliation task running against this index for P
targets that last row; the earlier duplicate rows at smaller positions
receive none of its staged updates. -/
theorem claim_C10 (colPedido : Nat) (linhas : List (List String)) (P : String)
    (j : Nat) (hj : j < linhas.length)
    (hv : linhaValida colPedido P (linhas.getD j []))
    (hlast : ∀ k, k < linhas.length → j < k →
      ¬ linhaValida colPedido P (linhas.getD k [])) :
    construir_indice colPedido linhas P = some (j + 2) ∧
    (∀ (cfg : Colunas) (sha1hex : String → String) (pedido : String)
       (row : List String) (agora_str : String) (agora : PyDateTime)
       (resultado : Option (List Evento)),
      stripStr pedido = P →
      ∀ u ∈ processar_linha cfg sha1hex (construir_indice colPedido linhas)
        pedido row agora_str agora resultado,
        u.row = j + 2 ∧ ∀ k, k < j → u.row ≠ k + 2) := by
  have hidx : construir_indice colPedido linhas P = some (j + 2) := by
    unfold construir_indice
    rw [indice_go_ultima colPedido linhas j 2 (fun _ => none) P hj hv hlast]
    congr 1
    omega
  refine ⟨hidx, ?_⟩
  intro cfg sha1hex pedido row agora_str agora resultado hstrip u hu
  have hind : construir_indice colPedido linhas (stripStr pedido) = some (j + 2) := by
    rw [hstrip]; exact hidx
  have hrow := processar_linha_mesma_linha cfg sha1hex
    (construir_indice colPedido linhas) pedido row agora_str agora resultado
    (j + 2) hind u hu
  refine ⟨hrow, ?_⟩
  intro k hk
  rw [hrow]
  omega

/-- Three snapshot rows, the first two sharing the identifier P-9. -/
def linhasTeste : List (List String) :=
  [["P-9", "primeira"], ["P-9", "segunda"], ["P-7", "outra"]]

theorem claim_C10_witness :
    construir_indice 0 linhasTeste "P-9" = some 3 :=
  (claim_C10 0 linhasTeste "P-9" 1 (by decide) (by decide) (by decide)).1
